import Mathlib

/-!
Verification of the UKCP updater's settings-reconciliation core.

The development shallowly embeds the Python sources:
  * `src/ukcp_updater/airac.py` (`Airac`) and its earlier revision
    `src/ukcpUpdater/functions.py` (`OldAirac`): pure cycle arithmetic.
    Dates are modelled as whole-day offsets (`ℤ`) from the fixed base date
    2019-01-02, which is day `0`; `datetime.date` subtraction and
    `timedelta(days=n)` addition become integer subtraction and addition,
    and `math.floor` of the exact ratio of whole days becomes `Int.fdiv`.
  * `src/ukcp_updater/functions.py` `Downloader.pull` (`Pull`): the diff
    review loop that harvests candidate custom settings.
  * `src/ukcp_updater/functions.py` `CurrentInstallation.apply_settings`
    with its nested per-file handlers `asr_sector_file` (`Asr`),
    `prf_files` (`Prf`), `txt_files` settings replay (`Txt`), and
    `get_sector_file` (`Merge`).

Text lines are modelled as `List Char` (a `readlines` line with its
trailing newline stripped; the regexes involved never match the newline).
Python regex operations used by the code are head-anchored
(`re.match` / `re.sub` with `^...` patterns ending in `.*`), so they are
embedded as prefix tests and whole-line replacements.
-/

/-- A text line, newline stripped. -/
abbrev Line := List Char

/-- Literal helper: the characters of a string literal. -/
def str (s : String) : Line := s.toList

/-- `begins p l` holds when `p` is a prefix of `l`; this is how the
head-anchored regex matches of the source are embedded. -/
def begins : Line → Line → Bool
  | [], _ => true
  | _ :: _, [] => false
  | p :: ps, l :: ls => if p = l then begins ps ls else false

/-- Python's substring containment `needle in haystack`. -/
def infixOf (n : Line) : Line → Bool
  | [] => begins n []
  | c :: t => begins n (c :: t) || infixOf n t

/-- Python's `s.rsplit(".", maxsplit=1)[-1]`: the part after the last dot,
or the whole string when there is no dot. -/
def extOf (p : Line) : Line :=
  if '.' ∈ p then ((p.reverse.takeWhile (fun c => !(c == '.'))).reverse) else p

/-- Python's `s.split("\\")[-1]`: the part after the last backslash,
or the whole string when there is no backslash. -/
def lastComp (p : Line) : Line :=
  if '\\' ∈ p then ((p.reverse.takeWhile (fun c => !(c == '\\'))).reverse) else p

namespace Airac

/-- `Airac.__init__`: 2019-01-02 as day number 0 of the model. -/
def base_date : ℤ := 0

/-- `Airac.__init__`: length of one AIRAC cycle. -/
def cycle_days : ℤ := 28

/-- `Airac._initialise`: the number of whole AIRAC cycles between the given
date and the base date, `math.floor` of the day difference over 28. -/
def initialise (d : ℤ) : ℤ := Int.fdiv (d - base_date) cycle_days

/-- The date produced by `Airac.cycle` for a given cycle count `n`:
`base_date + (n*cycle_days + 1)` days. -/
def cycleStartDate (n : ℤ) : ℤ := base_date + (n * cycle_days + 1)

/-- `Airac.cycle`: the date of the current (or, with `next_cycle`, the next)
AIRAC cycle for the input date. -/
def cycle (next_cycle : Bool) (d : ℤ) : ℤ :=
  if next_cycle then cycleStartDate (initialise d + 1) else cycleStartDate (initialise d)

end Airac

namespace OldAirac

/-- `Airac.__init__` of the earlier revision (`src/ukcpUpdater/functions.py`):
same base date, day number 0. -/
def base_date : ℤ := 0

/-- Length of one AIRAC cycle in the earlier revision. -/
def cycle_days : ℤ := 28

/-- `Airac.initialise` of the earlier revision. -/
def initialise (d : ℤ) : ℤ := Int.fdiv (d - base_date) cycle_days

/-- The inner `cycle(sub)` helper of `Airac.currentCycle` in the earlier
revision: steps back `sub` cycles. -/
def cycle_sub (d sub : ℤ) : ℤ := base_date + ((initialise d - sub) * cycle_days + 1)

/-- `Airac.currentCycle` of the earlier revision, including its lookback
correction: if the computed cycle start lies after the input date, step
back one cycle. -/
def currentCycle (d : ℤ) : ℤ :=
  if cycle_sub d 0 > d then cycle_sub d 1 else cycle_sub d 0

end OldAirac

namespace Pull

/-- Regex class `[A-Za-z]`. -/
def isAlphaChar (c : Char) : Bool :=
  ('A' ≤ c && c ≤ 'Z') || ('a' ≤ c && c ≤ 'z')

/-- `re.match(r"^[\+]([A-Za-z]+.*)", line)`: a line matches when it starts
with `+` immediately followed by an alphabetic character. -/
def chkMatch : Line → Bool
  | a :: c :: _ => a == '+' && isAlphaChar c
  | _ => false

/-- `re.match(r"^\+SECTOR[FILE|TITLE].*", line)`: note `[FILE|TITLE]` is a
character class, so this matches `+SECTOR` followed by any one of
`F I L E | T`. -/
def sectorExcl (l : Line) : Bool :=
  if begins (str "+SECTOR") l then
    match l.drop 7 with
    | c :: _ => c == 'F' || c == 'I' || c == 'L' || c == 'E' || c == '|' || c == 'T'
    | [] => false
  else false

/-- `re.match(r"^\+PLUGIN:vSMR:GndTrailsDots.*", line)`. -/
def gndExcl (l : Line) : Bool := begins (str "+PLUGIN:vSMR:GndTrailsDots") l

/-- A diff line is a candidate custom setting when the addition-marker match
succeeds and neither exclusion pattern matches. -/
def isCandidate (l : Line) : Bool := chkMatch l && !sectorExcl l && !gndExcl l

/-- `chk.group(1)`: everything after the leading `+`. -/
def stripped (l : Line) : Line := l.drop 1

/-- The candidate custom settings of a diff, in scan order. -/
def extract_candidates (diffLines : List Line) : List Line :=
  diffLines.filterMap (fun l => if isCandidate l then some (stripped l) else none)

/-- The user's answer to `"Do you want to retain this setting?"`:
`"Y"` retains, `"S"` skips the rest of the file, `"A"` skips all remaining
files, and any other input (including `"N"`) just drops the candidate. -/
inductive Decision
  | yes
  | skipFile
  | skipAll
  | other
deriving DecidableEq

/-- One changed file as seen by `Downloader.pull`: its path, whether
`os.path.exists(file)` holds, and the lines of `repo.git.diff(tag, file)`. -/
structure PullFile where
  path : Line
  onDisk : Bool
  diffLines : List Line

/-- Extensions excluded from the review loop
(`not in ["prf", "sct", "rwy", "ese"]`). -/
def excludedExts : List Line := [str "prf", str "sct", str "rwy", str "ese"]

/-- A changed file enters the review loop when its extension is not excluded
and it exists on disk. -/
def eligible (f : PullFile) : Bool :=
  !(excludedExts.contains (extOf f.path)) && f.onDisk

/-- The inner per-line loop of `Downloader.pull` over one file's diff.
`ds` is the stream of interactive decisions, indexed by how many prompts
have been issued so far (`k`). Returns the records appended to
`local/settings.csv` (streamed immediately on each `yes`), the prompt
counter afterwards, and whether `skipAll` (`break_flag`) was raised. -/
def reviewLines (fp : Line) (ds : Nat → Decision) :
    List Line → Nat → List (Line × Line) × Nat × Bool
  | [], k => ([], k, false)
  | l :: rest, k =>
    if isCandidate l then
      match ds k with
      | Decision.yes =>
        let r := reviewLines fp ds rest (k + 1)
        ((fp, stripped l) :: r.1, r.2.1, r.2.2)
      | Decision.other => reviewLines fp ds rest (k + 1)
      | Decision.skipFile => ([], k + 1, false)
      | Decision.skipAll => ([], k + 1, true)
    else reviewLines fp ds rest k

/-- The outer per-file loop of `Downloader.pull`: files are reviewed in
order; once `break_flag` is set by `skipAll`, no further file is touched.
Returns all records written to the flat store, in write order. -/
def pull_review (ds : Nat → Decision) : List PullFile → Nat → List (Line × Line)
  | [], _ => []
  | f :: rest, k =>
    if eligible f then
      let r := reviewLines f.path ds f.diffLines k
      if r.2.2 then r.1 else r.1 ++ pull_review ds rest r.2.1
    else pull_review ds rest k

end Pull

namespace Asr

/-- The per-line rewrite of `asr_sector_file`:
`re.sub(r"^SECTORFILE\:(.*)", ...)`, and if that leaves the line unchanged,
`re.sub(r"^SECTORTITLE\:(.*)", ...)`. The replacement string is the derived
line itself (the source doubles the backslashes only to survive `re.sub`
escape processing). -/
def subLine (p t : Line) (l : Line) : Line :=
  if begins (str "SECTORFILE:") l then str "SECTORFILE:" ++ p
  else if begins (str "SECTORTITLE:") l then str "SECTORTITLE:" ++ t
  else l

/-- `asr_sector_file` on one `.asr` file, with `p` the resolved sector file
path and `t` its title: every line is rewritten in place; if no line was
textually changed (`chk` stays false), the two derived lines are appended
at end of file. -/
def asr_sector_file (p t : Line) (ls : List Line) : List Line :=
  let rewritten := ls.map (subLine p t)
  if ls.any (fun l => decide (subLine p t l ≠ l)) then rewritten
  else rewritten ++ [str "SECTORFILE:" ++ p, str "SECTORTITLE:" ++ t]

end Asr

namespace Prf

/-- `re.match(r"^Plugins\tPlugin([\d]{1})\t.*", line)`: the single digit of
a plugin declaration line, when the line matches. -/
def pluginDigit (l : Line) : Option Char :=
  if begins (str "Plugins\tPlugin") l then
    match l.drop 14 with
    | d :: '\t' :: _ => if d.isDigit then some d else none
    | _ => none
  else none

/-- `int(c)` for a digit character. -/
def digitVal (c : Char) : Nat := c.toNat - 48

/-- `re.sub(r"^Settings\tsector\t(.*)", ...)` on one profile line. -/
def sctSub (sct : Line) (l : Line) : Line :=
  if begins (str "Settings\tsector\t") l then str "Settings\tsector\t" ++ sct else l

/-- The decimal digits of a number, for `f"Plugins\tPlugin{count}\t..."`. -/
def natChars (n : Nat) : Line := Nat.toDigits 10 n

/-- The `settings_prf` dictionary assembled by `user_settings`: required
identity fields are plain values, the optional VCCS fields may be `None`. -/
structure Settings where
  realname : Line
  certificate : Line
  password : Line
  rating : Line
  plugins : List Line
  vccs_ptt_g2a : Option Line
  vccs_ptt_g2g : Option Line
  vccs_playback_mode : Option Line
  vccs_playback_device : Option Line
  vccs_capture_mode : Option Line
  vccs_capture_device : Option Line

/-- `enumerate(settings_prf["plugins"], start_count_plugin)`: the appended
plugin declaration lines, numbered consecutively from `count`. -/
def pluginLines (count : Nat) : List Line → List Line
  | [] => []
  | fn :: rest =>
    (str "Plugins\tPlugin" ++ natChars count ++ str "\t" ++ fn) :: pluginLines (count + 1) rest

/-- An optional line: emitted exactly when the setting is not `None`. -/
def optLine (pre : Line) : Option Line → List Line
  | some v => [pre ++ v]
  | none => []

/-- The guard of the audio block: all four VCCS audio settings are
simultaneously non-null. -/
def audioAll (s : Settings) : Bool :=
  s.vccs_playback_mode.isSome && s.vccs_playback_device.isSome &&
  s.vccs_capture_mode.isSome && s.vccs_capture_device.isSome

/-- The four audio device/mode lines, emitted only when all four settings
are non-null. -/
def audioLines (s : Settings) : List Line :=
  if audioAll s then
    [str "TeamSpeakVccs\tPlaybackMode\t" ++ s.vccs_playback_mode.getD [],
     str "TeamSpeakVccs\tPlaybackDevice\t" ++ s.vccs_playback_device.getD [],
     str "TeamSpeakVccs\tCaptureMode\t" ++ s.vccs_capture_mode.getD [],
     str "TeamSpeakVccs\tCaptureDevice\t" ++ s.vccs_capture_device.getD []]
  else []

/-- The `apply_settings` list built by `prf_files` and appended to every
profile file after the rewritten contents, given the plugin start count. -/
def settingsBlock (s : Settings) (count : Nat) : List Line :=
  [str "LastSession\trealname\t" ++ s.realname,
   str "LastSession\tcertificate\t" ++ s.certificate,
   str "LastSession\tpassword\t" ++ s.password,
   str "LastSession\trating\t" ++ s.rating]
  ++ pluginLines count s.plugins
  ++ [str "TeamSpeakVccs\tTs3NickName\t" ++ s.certificate,
      str "TeamSpeakVccs\tTsVccsMiniControlX\t1581",
      str "TeamSpeakVccs\tTsVccsMiniControlY\t198"]
  ++ optLine (str "TeamSpeakVccs\tTs3G2APtt\t") s.vccs_ptt_g2a
  ++ optLine (str "TeamSpeakVccs\tTs3G2GPtt\t") s.vccs_ptt_g2g
  ++ audioLines s

/-- `sorted(plugin_count)` where `plugin_count` is a Python set: the
collected digits, deduplicated and sorted ascending. -/
def sortedDigits (lines : List Line) : List Char :=
  List.insertionSort (· ≤ ·) ((lines.filterMap pluginDigit).dedup)

/-- `sorted(plugin_count)[-1]` raises `IndexError` on an empty set. -/
inductive PrfError
  | indexError
deriving DecidableEq

/-- `prf_files` on one `.prf` file: rewrite the sector line in place, scan
the plugin declarations for the highest single-digit suffix, then append a
blank line and the settings block. `sorted(plugin_count)[-1]` on an empty
collection raises `IndexError`, aborting before anything is appended. -/
def prf_files (sct : Line) (s : Settings) (lines : List Line) :
    Except PrfError (List Line) :=
  match (sortedDigits lines).getLast? with
  | none => Except.error PrfError.indexError
  | some d =>
    Except.ok (lines.map (sctSub sct) ++ [[]] ++ settingsBlock s (digitVal d + 1))

/-- The `.prf` stage of `apply_settings`: the decorated `prf_files` runs over
every profile file in order; an uncaught `IndexError` in any one file
propagates and aborts the whole merge. -/
def prfStage (sct : Line) (s : Settings) : List (List Line) → Except PrfError (List (List Line))
  | [] => Except.ok []
  | f :: rest =>
    match prf_files sct s f with
    | Except.error e => Except.error e
    | Except.ok out =>
      match prfStage sct s rest with
      | Except.error e => Except.error e
      | Except.ok outs => Except.ok (out :: outs)

/-- Whether an `Except` run completed without an exception. -/
def exceptOk : Except PrfError (List (List Line)) → Bool
  | Except.ok _ => true
  | Except.error _ => false

/-- The four audio device/mode line shapes, recognised by prefix. -/
def isAudioLine (l : Line) : Bool :=
  begins (str "TeamSpeakVccs\tPlaybackMode\t") l ||
  begins (str "TeamSpeakVccs\tPlaybackDevice\t") l ||
  begins (str "TeamSpeakVccs\tCaptureMode\t") l ||
  begins (str "TeamSpeakVccs\tCaptureDevice\t") l

end Prf

namespace Txt

/-- The failure of the settings replay in `txt_files`: when the stored line
has fewer than two colon tokens, `search_string` is left unassigned and the
following `re.sub` raises `NameError` (unbound local) if no earlier record
of this file assigned it. -/
inductive TxtError
  | nameError
deriving DecidableEq

/-- Python's `s.split(':')`. -/
def splitColon : Line → List Line
  | [] => [[]]
  | c :: rest =>
    match splitColon rest with
    | [] => [[c]]
    | h :: t => if c = ':' then [] :: h :: t else (c :: h) :: t

/-- The `search_string` derived from a stored record's data: the first
token when there are exactly two colon tokens, the first two joined by a
colon when there are more, and nothing (the `logger.error` branch, which
assigns no `search_string`) otherwise. -/
def searchKey (data : Line) : Option Line :=
  let parts := splitColon data
  if parts.length = 2 then some (parts.headD [])
  else if 2 < parts.length then
    some (parts.headD [] ++ [':'] ++ (parts.drop 1).headD [])
  else none

/-- `re.sub(rf"^{search_string}\:.*", row['data'], line)`: a line starting
with the key followed by a colon is replaced wholesale by the stored data. -/
def replayLine (key data l : Line) : Line :=
  if begins (key ++ [':']) l then data else l

/-- `row["filepath"].replace("/", "\\")`. -/
def normSlash (c : Char) : Char := if c = '/' then '\\' else c

/-- The per-row loop of the settings replay in `txt_files`, carrying the
current value of the local variable `search_string` (`none` while it is
still unassigned). A row whose filepath does not match the current file is
skipped. For a matching row, the key derived from its data replaces
`search_string`; when no key can be derived the *previous* value is used
unchanged — `none` then reproduces Python's `NameError`, while a stale key
replays this row's data under the previous record's key. Every matching
row iterates the *original* `lines` list read by the wrapper (the loop is
`for line in lines`, never re-read), producing one full transformed pass
of the file per row; the passes are returned in row order. -/
def replayGo (fp : Line) (origLines : List Line) :
    List (Line × Line) → Option Line → Except TxtError (List (List Line))
  | [], _ => Except.ok []
  | (rfp, data) :: rest, cur =>
    if infixOf (rfp.map normSlash) fp then
      match (match searchKey data with | some k => some k | none => cur) with
      | none => Except.error TxtError.nameError
      | some k =>
        match replayGo fp origLines rest (some k) with
        | Except.error e => Except.error e
        | Except.ok passes => Except.ok (origLines.map (replayLine k data) :: passes)
    else replayGo fp origLines rest cur

/-- The settings replay section of `txt_files` for one generic `.txt` file
(one not matching the `*_APP_Screen.txt` / `*_APP_DL.txt` patterns, so the
file position is still 0 when this section starts): each matching row
writes its pass at the current file position and calls `truncate()`, and
the position is never reset between rows. The first pass therefore starts
at position 0 and the truncate cuts any residue of the old contents, fully
replacing the file; every further pass is written at end of file,
appending another transformed copy of the original lines. With no matching
row the file is left untouched. -/
def replay_records (fp : Line) (rows : List (Line × Line)) (lines : List Line) :
    Except TxtError (List Line) :=
  match replayGo fp lines rows none with
  | Except.error e => Except.error e
  | Except.ok [] => Except.ok lines
  | Except.ok (p :: ps) => Except.ok ((p :: ps).flatten)

end Txt

namespace Merge

/-- The outcome of one pass of the `while loop` in `get_sector_file`. -/
inductive SectorStep
  | useExisting (p : Line)
  | downloadNew (p : Line)
  | deleteRetry
deriving DecidableEq

/-- One iteration of `get_sector_file`, given the `.sct` files found by the
directory walk, the AIRAC tag in file-name format (`self.airac` with `/`
replaced by `_`), and whether the user declines the download offer.
When no sector file is found the source appends the literal `"*"` to the
candidate list, which then passes the length-1 check; a file whose name
does not embed the current tag triggers the download offer, and declining
it falls through to returning the file; with two or more files the source
deletes sector data and loops. -/
def get_sector_file_step (ukcp : Line) (sctFiles : List Line) (fmt : Line)
    (decline : Bool) : SectorStep :=
  let sector_file := if sctFiles.isEmpty then [str "*"] else sctFiles
  if sector_file.length = 1 then
    let f := sector_file.headD []
    if infixOf fmt f then SectorStep.useExisting f
    else if decline then SectorStep.useExisting f
    else SectorStep.downloadNew (ukcp ++ str "\\Data\\Sector\\UK_" ++ fmt ++ str ".sct")
  else SectorStep.deleteRetry

/-- The result of `apply_settings`: once `get_sector_file` returns a path,
the three rewrite stages run unconditionally (`.asr` then `.prf`; the
`.txt` stage is modelled separately); in the two-or-more case the source
deletes sector files and retries the walk. There is no failure state. -/
inductive MergeResult
  | proceeded (sctPath : Line) (asrOut : List (List Line))
      (prfOut : Except Prf.PrfError (List (List Line)))
  | deleteRetry

/-- `apply_settings`, composed from `get_sector_file` and the per-file
handlers: the resolved sector path is spliced into every `.asr` file
(title = last path component) and every `.prf` file. -/
def apply_settings (ukcp : Line) (sctFiles : List Line) (fmt : Line)
    (decline : Bool) (asrFiles prfIn : List (List Line)) (s : Prf.Settings) :
    MergeResult :=
  match get_sector_file_step ukcp sctFiles fmt decline with
  | SectorStep.useExisting p =>
    MergeResult.proceeded p (asrFiles.map (Asr.asr_sector_file p (lastComp p)))
      (Prf.prfStage p s prfIn)
  | SectorStep.downloadNew p =>
    MergeResult.proceeded p (asrFiles.map (Asr.asr_sector_file p (lastComp p)))
      (Prf.prfStage p s prfIn)
  | SectorStep.deleteRetry => MergeResult.deleteRetry

/-- Whether the merge reached the rewrite stages. -/
def mergeProceeded : MergeResult → Bool
  | MergeResult.proceeded _ _ _ => true
  | MergeResult.deleteRetry => false

/-- The `.prf` outputs of a completed merge, when the `.prf` stage ran to
completion. -/
def mergePrfOut : MergeResult → Option (List (List Line))
  | MergeResult.proceeded _ _ (Except.ok o) => some o
  | _ => none

end Merge

/-! ## Helper lemmas -/

theorem fdiv_to_ediv (a : ℤ) : Int.fdiv a 28 = a / 28 :=
  Int.fdiv_eq_ediv a (by norm_num)

/-! ## C1 -/

/-- C1: the claim as stated is false: the day before a cycle start date
still belongs to the same cycle, not the previous one. Concretely at
`n = 0`: `cycleStartDate 0` is day 1 (2019-01-03) and the day before it,
day 0 (the base date itself), has cycle index `0`, not `-1`. -/
theorem c1_counterexample :
    Airac.initialise (Airac.cycleStartDate 0 - 1) = 0 ∧
    ¬ (Airac.initialise (Airac.cycleStartDate 0) = 0 ∧
       Airac.initialise (Airac.cycleStartDate 0 - 1) = 0 - 1) := by
  decide

/-- C1 (amended): for every integer `n ≥ 0`,
`cycleIndex (cycleStartDate n) = n`, the day before a cycle start still has
index `n`, and boundary exactness holds two days before the start:
`cycleIndex (cycleStartDate n - 2) = n - 1`. -/
theorem c1_cycle_boundary_amended (n : ℤ) (_h : 0 ≤ n) :
    Airac.initialise (Airac.cycleStartDate n) = n ∧
    Airac.initialise (Airac.cycleStartDate n - 1) = n ∧
    Airac.initialise (Airac.cycleStartDate n - 2) = n - 1 := by
  simp only [Airac.initialise, Airac.cycleStartDate, Airac.base_date, Airac.cycle_days,
    fdiv_to_ediv]
  omega

/-- C1 witness: the amended boundary statement at `n = 3`. -/
theorem c1_cycle_boundary_amended_witness :
    (0 : ℤ) ≤ 3 ∧
    (Airac.initialise (Airac.cycleStartDate 3) = 3 ∧
     Airac.initialise (Airac.cycleStartDate 3 - 1) = 3 ∧
     Airac.initialise (Airac.cycleStartDate 3 - 2) = 3 - 1) :=
  ⟨by decide, c1_cycle_boundary_amended 3 (by decide)⟩

/-! ## C9 -/

/-- C9: for every date `d` on or after the base date, the latest revision's
`Airac.cycle` (with `next_cycle = false`) agrees with the earlier
revision's `Airac.currentCycle` (which has the lookback correction) unless
the elapsed days are an exact multiple of the cycle length, in which case
the computed cycle start falls one day after `d`, only the earlier revision
steps back, and the two results differ by exactly one 28-day cycle. -/
theorem c9_lookback_refinement (d : ℤ) (_h : Airac.base_date ≤ d) :
    (¬ (28 ∣ (d - Airac.base_date)) →
      Airac.cycle false d = OldAirac.currentCycle d) ∧
    ((28 ∣ (d - Airac.base_date)) →
      Airac.cycle false d = OldAirac.currentCycle d + 28) := by
  simp only [Airac.cycle, Airac.cycleStartDate, Airac.initialise, Airac.base_date,
    Airac.cycle_days, OldAirac.currentCycle, OldAirac.cycle_sub, OldAirac.initialise,
    OldAirac.base_date, OldAirac.cycle_days, fdiv_to_ediv, if_false, Bool.false_eq_true]
  constructor <;> intro hdvd <;> split_ifs <;> omega

/-- C9 witness: at day `57` (not a multiple of 28) the hypotheses hold and
the two revisions agree; the divisibility branch is discharged vacuously
by the instantiated theorem. -/
theorem c9_lookback_refinement_witness :
    Airac.base_date ≤ 57 ∧
    ((¬ (28 ∣ (57 - Airac.base_date)) →
       Airac.cycle false 57 = OldAirac.currentCycle 57) ∧
     ((28 ∣ (57 - Airac.base_date)) →
       Airac.cycle false 57 = OldAirac.currentCycle 57 + 28)) :=
  ⟨by decide, c9_lookback_refinement 57 (by decide)⟩

/-! ## C2 -/

theorem begins_append (p r : Line) : begins p (p ++ r) = true := by
  induction p with
  | nil => rfl
  | cons a as ih => simp [begins, ih]

theorem begins_file_title (t : Line) :
    begins (str "SECTORFILE:") (str "SECTORTITLE:" ++ t) = false := rfl

theorem subLine_fixed (p t l : Line) :
    Asr.subLine p t (Asr.subLine p t l) = Asr.subLine p t l := by
  unfold Asr.subLine
  cases h1 : begins (str "SECTORFILE:") l with
  | true => simp [begins_append]
  | false =>
    cases h2 : begins (str "SECTORTITLE:") l with
    | true => simp [begins_append, begins_file_title]
    | false => simp [h1, h2]

theorem subLine_fileLine (p t : Line) :
    Asr.subLine p t (str "SECTORFILE:" ++ p) = str "SECTORFILE:" ++ p := by
  simp [Asr.subLine, begins_append]

theorem subLine_titleLine (p t : Line) :
    Asr.subLine p t (str "SECTORTITLE:" ++ t) = str "SECTORTITLE:" ++ t := by
  simp [Asr.subLine, begins_append, begins_file_title]

theorem asr_out_fixed (p t : Line) (ls : List Line) :
    ∀ l ∈ Asr.asr_sector_file p t ls, Asr.subLine p t l = l := by
  intro l hl
  unfold Asr.asr_sector_file at hl
  cases hc : (ls.any fun l => decide (Asr.subLine p t l ≠ l)) with
  | true =>
    rw [hc] at hl
    simp only [if_true, List.mem_map] at hl
    obtain ⟨x, _, rfl⟩ := hl
    exact subLine_fixed p t x
  | false =>
    rw [hc] at hl
    simp only [Bool.false_eq_true, if_false, List.mem_append, List.mem_map, List.mem_cons,
      List.not_mem_nil, or_false] at hl
    rcases hl with ⟨x, _, rfl⟩ | h | h
    · exact subLine_fixed p t x
    · exact h ▸ subLine_fileLine p t
    · exact h ▸ subLine_titleLine p t

theorem asr_apply_unchanged (p t : Line) (xs : List Line)
    (h : (xs.any fun l => decide (Asr.subLine p t l ≠ l)) = false) :
    Asr.asr_sector_file p t xs =
      xs.map (Asr.subLine p t) ++ [str "SECTORFILE:" ++ p, str "SECTORTITLE:" ++ t] := by
  unfold Asr.asr_sector_file
  rw [h]
  simp

/-- C2: the sector-reference rewrite is not idempotent. After a first
application every `SECTORFILE`/`SECTORTITLE` line already equals its
derived replacement, so the second application's `re.sub` calls leave
every line textually unchanged, `chk` stays false, and the
append-at-end-of-file branch runs again. Concretely: a one-line `.asr`
file gains the two derived lines on the second application. -/
theorem c2_counterexample :
    Asr.asr_sector_file (str "NEW.sct") (str "NEW.sct")
        (Asr.asr_sector_file (str "NEW.sct") (str "NEW.sct") [str "SECTORFILE:OLD.sct"]) ≠
      Asr.asr_sector_file (str "NEW.sct") (str "NEW.sct") [str "SECTORFILE:OLD.sct"] := by
  decide

/-- C2 (amended): applying the sector-reference rewrite a second time never
takes the `Replace` path's changed branch: since the first application left
every line a fixed point of the per-line substitution, the second
application detects no textual change and always takes the `AppendIfAbsent`
branch, returning the first output with the two derived lines appended. -/
theorem c2_asr_second_application_appends (p t : Line) (ls : List Line) :
    Asr.asr_sector_file p t (Asr.asr_sector_file p t ls) =
      Asr.asr_sector_file p t ls ++
        [str "SECTORFILE:" ++ p, str "SECTORTITLE:" ++ t] := by
  have hfix := asr_out_fixed p t ls
  have hmap : (Asr.asr_sector_file p t ls).map (Asr.subLine p t) =
      Asr.asr_sector_file p t ls := by
    conv_rhs => rw [← List.map_id (Asr.asr_sector_file p t ls)]
    exact List.map_congr_left hfix
  have hany : ((Asr.asr_sector_file p t ls).any
      fun l => decide (Asr.subLine p t l ≠ l)) = false := by
    rw [List.any_eq_false]
    intro x hx
    simp [hfix x hx]
  rw [asr_apply_unchanged p t _ hany, hmap]

/-! ## C3 -/

/-- C3: the claim describes the intended behaviour, but the code does not
skip a malformed record: after the `logger.error` branch the replay loop
runs anyway with `search_string` unassigned. Evaluating the replay at a
store whose first record for the file has no colon reproduces the
`NameError` that aborts the file's processing. And when an earlier valid
record exists, the malformed record is not skipped either: it is replayed
under the *previous* record's key, writing a second transformed pass of
the original lines at end of file — on a two-line file whose first record
`A:1` replaces `A:9`, the malformed record `nocolon` produces the file
`A:1, B:2, nocolon, B:2` instead of leaving `A:1, B:2` untouched. -/
theorem c3_malformed_record_crashes :
    Txt.replay_records (str "f.txt") [(str "f.txt", str "nocolon")] [str "Hello:1"] =
      Except.error Txt.TxtError.nameError ∧
    Txt.replay_records (str "f.txt")
        [(str "f.txt", str "A:1"), (str "f.txt", str "nocolon")]
        [str "A:9", str "B:2"] =
      Except.ok [str "A:1", str "B:2", str "nocolon", str "B:2"] :=
  ⟨rfl, rfl⟩

/-! ## C4 -/

/-- C4: the claim is false: with zero `.sct` files present the merge does
not terminate in a failed state and profile files are mutated.
`get_sector_file` appends the literal `"*"` to the empty candidate list,
which passes the exactly-one check; with the download offer declined it
returns `"*"`, and `apply_settings` proceeds to rewrite: the `.prf` stage
completes and its output differs from the input file. -/
theorem c4_counterexample :
    Merge.mergeProceeded (Merge.apply_settings (str "U") [] (str "2024_01") true []
        [[str "Plugins\tPlugin0\tZ"]]
        ⟨str "r", str "c", str "p", str "1", [], none, none, none, none, none, none⟩) = true ∧
    Merge.mergePrfOut (Merge.apply_settings (str "U") [] (str "2024_01") true []
        [[str "Plugins\tPlugin0\tZ"]]
        ⟨str "r", str "c", str "p", str "1", [], none, none, none, none, none, none⟩) ≠
      some [[str "Plugins\tPlugin0\tZ"]] ∧
    (Merge.mergePrfOut (Merge.apply_settings (str "U") [] (str "2024_01") true []
        [[str "Plugins\tPlugin0\tZ"]]
        ⟨str "r", str "c", str "p", str "1", [], none, none, none, none, none, none⟩)).isSome
      = true := by
  refine ⟨rfl, ?_, rfl⟩
  decide

/-- C4 (amended): an ambiguous sector file count never puts the merge into
a failed state. With zero `.sct` files and the download declined,
`get_sector_file` returns the literal `"*"` and `apply_settings` proceeds
to run the `.asr` and `.prf` rewrite stages with that path (mutating
profile and session files); with two or more `.sct` files the source
instead deletes sector data and retries the walk. -/
theorem c4_zero_sct_proceeds (ukcp fmt : Line) (asrFiles prfIn : List (List Line))
    (s : Prf.Settings) :
    (Merge.apply_settings ukcp [] fmt true asrFiles prfIn s =
      Merge.MergeResult.proceeded (str "*")
        (asrFiles.map (Asr.asr_sector_file (str "*") (str "*")))
        (Prf.prfStage (str "*") s prfIn)) ∧
    ∀ (f1 f2 : Line) (more : List Line) (decline : Bool),
      Merge.get_sector_file_step ukcp (f1 :: f2 :: more) fmt decline =
        Merge.SectorStep.deleteRetry := by
  constructor
  · have hstep : Merge.get_sector_file_step ukcp [] fmt true =
        Merge.SectorStep.useExisting (str "*") := by
      unfold Merge.get_sector_file_step
      cases h : infixOf fmt (str "*") <;> simp [h]
    unfold Merge.apply_settings
    rw [hstep]
    rfl
  · intro f1 f2 more decline
    unfold Merge.get_sector_file_step
    simp

/-! ## C5 -/

theorem review_skip_noncandidates (fp : Line) (ds : Nat → Pull.Decision)
    (pre ls : List Line) (k : Nat)
    (h : ∀ l ∈ pre, Pull.isCandidate l = false) :
    Pull.reviewLines fp ds (pre ++ ls) k = Pull.reviewLines fp ds ls k := by
  induction pre with
  | nil => rfl
  | cons a t ih =>
    have ha := h a (by simp)
    rw [List.cons_append]
    rw [show Pull.reviewLines fp ds (a :: (t ++ ls)) k
        = Pull.reviewLines fp ds (t ++ ls) k by
      simp only [Pull.reviewLines, ha]
      simp]
    exact ih (fun l hl => h l (by simp [hl]))

/-- C5: if candidate `a` of the first eligible file is accepted and the very
next prompted candidate `b` of the same file receives `SkipAll`, then the
flat-record store ends up containing exactly the one streamed record for
`a`, regardless of what later files contain: `break_flag` stops the outer
loop before any remaining file is opened or prompted. -/
theorem c5_skip_all_after_accept (fp : Line) (pre mid post : List Line)
    (a b : Line) (rest : List Pull.PullFile) (ds : Nat → Pull.Decision) (k : Nat)
    (hext : Pull.excludedExts.contains (extOf fp) = false)
    (hpre : ∀ l ∈ pre, Pull.isCandidate l = false)
    (ha : Pull.isCandidate a = true)
    (hmid : ∀ l ∈ mid, Pull.isCandidate l = false)
    (hb : Pull.isCandidate b = true)
    (hy : ds k = Pull.Decision.yes)
    (hs : ds (k + 1) = Pull.Decision.skipAll) :
    Pull.pull_review ds
        ({ path := fp, onDisk := true, diffLines := pre ++ a :: (mid ++ b :: post) } :: rest) k
      = [(fp, Pull.stripped a)] := by
  have hinner : Pull.reviewLines fp ds (mid ++ b :: post) (k + 1) = ([], k + 2, true) := by
    rw [review_skip_noncandidates fp ds mid (b :: post) (k + 1) hmid]
    unfold Pull.reviewLines
    rw [hb, hs]
    simp
  have hfile : Pull.reviewLines fp ds (pre ++ a :: (mid ++ b :: post)) k
      = ([(fp, Pull.stripped a)], k + 2, true) := by
    rw [review_skip_noncandidates fp ds pre _ k hpre]
    unfold Pull.reviewLines
    rw [ha, hy]
    simp [hinner]
  unfold Pull.pull_review
  rw [show Pull.eligible { path := fp, onDisk := true, diffLines := pre ++ a :: (mid ++ b :: post) } = true by
    simp only [Pull.eligible]
    rw [hext]
    rfl]
  simp [hfile]

/-- The scripted decision source for the C5 witness: accept the first
prompted candidate, skip all at the second prompt. -/
def dsC5 : Nat → Pull.Decision :=
  fun n => if n = 0 then Pull.Decision.yes else Pull.Decision.skipAll

/-- C5 witness: a concrete two-file run in which `+Aset:1` of `f1.txt` is
accepted, the next prompt receives `SkipAll`, and the store holds exactly
the record for `Aset:1`; the second file's candidate is never reached. -/
theorem c5_skip_all_after_accept_witness :
    Pull.excludedExts.contains (extOf (str "f1.txt")) = false ∧
    Pull.isCandidate (str "+Aset:1") = true ∧
    Pull.isCandidate (str "+Bset:2") = true ∧
    Pull.pull_review dsC5
        [{ path := str "f1.txt", onDisk := true,
           diffLines := [] ++ (str "+Aset:1") :: ([] ++ (str "+Bset:2") :: []) },
         { path := str "f2.txt", onDisk := true, diffLines := [str "+Cset:3"] }] 0
      = [(str "f1.txt", Pull.stripped (str "+Aset:1"))] :=
  ⟨by decide, by decide, by decide,
    c5_skip_all_after_accept (str "f1.txt") [] [] [] (str "+Aset:1") (str "+Bset:2")
      [{ path := str "f2.txt", onDisk := true, diffLines := [str "+Cset:3"] }]
      dsC5 0 (by decide) (by simp) (by decide) (by simp) (by decide) rfl rfl⟩

/-! ## C6 -/

/-- C6: a diff line is a candidate custom setting exactly when it starts
with a single `+` followed by an alphabetic character and matches neither
exclusion pattern; and on the three-line diff of the claim the candidate
sequence is exactly `SomeSetting:1`. -/
theorem c6_candidate_characterisation :
    Pull.extract_candidates
        [str "+SECTORFILE:x", str "+SomeSetting:1", str "+SECTORTITLE:y"]
      = [str "SomeSetting:1"] ∧
    ∀ l : Line, Pull.isCandidate l = true ↔
      ((∃ c r, l = '+' :: c :: r ∧ Pull.isAlphaChar c = true) ∧
       Pull.sectorExcl l = false ∧ Pull.gndExcl l = false) := by
  constructor
  · decide
  · intro l
    constructor
    · intro h
      simp only [Pull.isCandidate, Bool.and_eq_true, Bool.not_eq_true'] at h
      obtain ⟨⟨hchk, hsec⟩, hgnd⟩ := h
      refine ⟨?_, hsec, hgnd⟩
      match l, hchk with
      | a :: c :: r, hchk =>
        simp only [Pull.chkMatch, Bool.and_eq_true, beq_iff_eq] at hchk
        exact ⟨c, r, by rw [hchk.1], hchk.2⟩
    · rintro ⟨⟨c, r, rfl, hc⟩, hsec, hgnd⟩
      simp [Pull.isCandidate, Pull.chkMatch, hc, hsec, hgnd]

/-! ## C7 -/

theorem sorted_getLast?_eq_max {l : List Char} {N : Char}
    (hs : List.Sorted (· ≤ ·) l) (hN : N ∈ l) (hub : ∀ x ∈ l, x ≤ N) :
    l.getLast? = some N := by
  induction l with
  | nil => cases hN
  | cons a t ih =>
    cases t with
    | nil =>
      have : N = a := by
        rcases List.mem_cons.mp hN with h | h
        · exact h
        · cases h
      simp [this]
    | cons b t2 =>
      rw [List.getLast?_cons_cons]
      rcases List.sorted_cons.mp hs with ⟨hafirst, hs2⟩
      have hmem : N ∈ b :: t2 := by
        rcases List.mem_cons.mp hN with h | h
        · have hba : b ≤ N := hub b (by simp)
          have hab : N ≤ b := h ▸ hafirst b (by simp)
          exact List.mem_cons.mpr (Or.inl (le_antisymm hba hab).symm)
        · exact h
      exact ih hs2 hmem (fun x hx => hub x (List.mem_cons_of_mem a hx))

/-- C7: if the single-digit plugin declaration lines of a profile file (the
lines the source's `^Plugins\tPlugin([\d]{1})\t.*` pattern matches) have
highest digit `N`, then `prf_files` completes and appends the newly
accepted plugins numbered consecutively from `N + 1`: the settings block
is built with plugin start count `digitVal N + 1`, and `pluginLines`
numbers the accepted plugins consecutively from there. -/
theorem c7_plugin_numbering (sct : Line) (s : Prf.Settings) (lines : List Line)
    (N : Char) (h1 : N ∈ lines.filterMap Prf.pluginDigit)
    (h2 : ∀ d ∈ lines.filterMap Prf.pluginDigit, d ≤ N) :
    Prf.prf_files sct s lines =
      Except.ok (lines.map (Prf.sctSub sct) ++ [[]] ++
        Prf.settingsBlock s (Prf.digitVal N + 1)) := by
  have hmem : N ∈ Prf.sortedDigits lines := by
    unfold Prf.sortedDigits
    rw [List.mem_insertionSort]
    exact List.mem_dedup.mpr h1
  have hub : ∀ x ∈ Prf.sortedDigits lines, x ≤ N := by
    intro x hx
    unfold Prf.sortedDigits at hx
    rw [List.mem_insertionSort] at hx
    exact h2 x (List.mem_dedup.mp hx)
  have hsorted : List.Sorted (· ≤ ·) (Prf.sortedDigits lines) :=
    List.sorted_insertionSort (· ≤ ·) _
  have hlast := sorted_getLast?_eq_max hsorted hmem hub
  unfold Prf.prf_files
  rw [hlast]

/-- C7 witness: a profile with `Plugin0` and `Plugin1` declarations and two
newly accepted plugins; the appended block is built with start count 2, so
the accepted plugins are emitted as `Plugin2` and `Plugin3`. -/
theorem c7_plugin_numbering_witness :
    '1' ∈ [str "Plugins\tPlugin0\tX", str "Plugins\tPlugin1\tY"].filterMap Prf.pluginDigit ∧
    (∀ d ∈ [str "Plugins\tPlugin0\tX", str "Plugins\tPlugin1\tY"].filterMap Prf.pluginDigit,
      d ≤ '1') ∧
    Prf.prf_files (str "S")
        ⟨str "r", str "c", str "p", str "1", [str "A.dll", str "B.dll"],
         none, none, none, none, none, none⟩
        [str "Plugins\tPlugin0\tX", str "Plugins\tPlugin1\tY"] =
      Except.ok ([str "Plugins\tPlugin0\tX", str "Plugins\tPlugin1\tY"].map
          (Prf.sctSub (str "S")) ++ [[]] ++
        Prf.settingsBlock
          ⟨str "r", str "c", str "p", str "1", [str "A.dll", str "B.dll"],
           none, none, none, none, none, none⟩ (Prf.digitVal '1' + 1)) ∧
    Prf.pluginLines (Prf.digitVal '1' + 1) [str "A.dll", str "B.dll"] =
      [str "Plugins\tPlugin2\tA.dll", str "Plugins\tPlugin3\tB.dll"] :=
  ⟨by decide, by decide,
    c7_plugin_numbering (str "S")
      ⟨str "r", str "c", str "p", str "1", [str "A.dll", str "B.dll"],
       none, none, none, none, none, none⟩
      [str "Plugins\tPlugin0\tX", str "Plugins\tPlugin1\tY"] '1'
      (by decide) (by decide),
    by decide⟩

/-! ## C8 -/

theorem isAudio_realname (v : Line) :
    Prf.isAudioLine (str "LastSession\trealname\t" ++ v) = false := rfl

theorem isAudio_certificate (v : Line) :
    Prf.isAudioLine (str "LastSession\tcertificate\t" ++ v) = false := rfl

theorem isAudio_password (v : Line) :
    Prf.isAudioLine (str "LastSession\tpassword\t" ++ v) = false := rfl

theorem isAudio_rating (v : Line) :
    Prf.isAudioLine (str "LastSession\trating\t" ++ v) = false := rfl

theorem isAudio_nickname (v : Line) :
    Prf.isAudioLine (str "TeamSpeakVccs\tTs3NickName\t" ++ v) = false := rfl

theorem isAudio_pluginLine (k fn : Line) :
    Prf.isAudioLine (str "Plugins\tPlugin" ++ k ++ str "\t" ++ fn) = false := rfl

theorem isAudio_g2a (v : Line) :
    Prf.isAudioLine (str "TeamSpeakVccs\tTs3G2APtt\t" ++ v) = false := rfl

theorem isAudio_g2g (v : Line) :
    Prf.isAudioLine (str "TeamSpeakVccs\tTs3G2GPtt\t" ++ v) = false := rfl

theorem isAudio_playback_mode (v : Line) :
    Prf.isAudioLine (str "TeamSpeakVccs\tPlaybackMode\t" ++ v) = true := by
  simp only [Prf.isAudioLine, begins_append, Bool.true_or]

theorem isAudio_playback_device (v : Line) :
    Prf.isAudioLine (str "TeamSpeakVccs\tPlaybackDevice\t" ++ v) = true := by
  have h1 : begins (str "TeamSpeakVccs\tPlaybackMode\t")
      (str "TeamSpeakVccs\tPlaybackDevice\t" ++ v) = false := rfl
  simp only [Prf.isAudioLine, h1, begins_append, Bool.false_or, Bool.true_or]

theorem isAudio_capture_mode (v : Line) :
    Prf.isAudioLine (str "TeamSpeakVccs\tCaptureMode\t" ++ v) = true := by
  have h1 : begins (str "TeamSpeakVccs\tPlaybackMode\t")
      (str "TeamSpeakVccs\tCaptureMode\t" ++ v) = false := rfl
  have h2 : begins (str "TeamSpeakVccs\tPlaybackDevice\t")
      (str "TeamSpeakVccs\tCaptureMode\t" ++ v) = false := rfl
  simp only [Prf.isAudioLine, h1, h2, begins_append, Bool.false_or, Bool.true_or]

theorem isAudio_capture_device (v : Line) :
    Prf.isAudioLine (str "TeamSpeakVccs\tCaptureDevice\t" ++ v) = true := by
  have h1 : begins (str "TeamSpeakVccs\tPlaybackMode\t")
      (str "TeamSpeakVccs\tCaptureDevice\t" ++ v) = false := rfl
  have h2 : begins (str "TeamSpeakVccs\tPlaybackDevice\t")
      (str "TeamSpeakVccs\tCaptureDevice\t" ++ v) = false := rfl
  have h3 : begins (str "TeamSpeakVccs\tCaptureMode\t")
      (str "TeamSpeakVccs\tCaptureDevice\t" ++ v) = false := rfl
  simp only [Prf.isAudioLine, h1, h2, h3, begins_append, Bool.false_or]

theorem filter_pluginLines_audio (c : Nat) (ps : List Line) :
    (Prf.pluginLines c ps).filter Prf.isAudioLine = [] := by
  induction ps generalizing c with
  | nil => rfl
  | cons fn rest ih =>
    simp only [Prf.pluginLines, List.filter_cons, isAudio_pluginLine]
    simpa using ih (c + 1)

theorem filter_optLine_g2a (v : Option Line) :
    (Prf.optLine (str "TeamSpeakVccs\tTs3G2APtt\t") v).filter Prf.isAudioLine = [] := by
  cases v <;> simp [Prf.optLine, isAudio_g2a]

theorem filter_optLine_g2g (v : Option Line) :
    (Prf.optLine (str "TeamSpeakVccs\tTs3G2GPtt\t") v).filter Prf.isAudioLine = [] := by
  cases v <;> simp [Prf.optLine, isAudio_g2g]

/-- C8: the settings block appended to every profile file contains the four
audio device/mode lines exactly when all four audio settings are non-null,
and contains zero audio lines whenever any one of the four is null: the
audio lines of the block are the all-or-nothing `audioLines` group and
nothing else in the block matches an audio line shape. -/
theorem c8_audio_all_or_nothing (s : Prf.Settings) (count : Nat) :
    (Prf.settingsBlock s count).filter Prf.isAudioLine =
      (if Prf.audioAll s then
        [str "TeamSpeakVccs\tPlaybackMode\t" ++ s.vccs_playback_mode.getD [],
         str "TeamSpeakVccs\tPlaybackDevice\t" ++ s.vccs_playback_device.getD [],
         str "TeamSpeakVccs\tCaptureMode\t" ++ s.vccs_capture_mode.getD [],
         str "TeamSpeakVccs\tCaptureDevice\t" ++ s.vccs_capture_device.getD []]
       else []) := by
  unfold Prf.settingsBlock
  simp only [List.filter_append, filter_pluginLines_audio, filter_optLine_g2a,
    filter_optLine_g2g, List.filter_cons, List.filter_nil, isAudio_realname,
    isAudio_certificate, isAudio_password, isAudio_rating, isAudio_nickname]
  rw [show Prf.isAudioLine (str "TeamSpeakVccs\tTsVccsMiniControlX\t1581") = false from rfl]
  rw [show Prf.isAudioLine (str "TeamSpeakVccs\tTsVccsMiniControlY\t198") = false from rfl]
  simp only [Bool.false_eq_true, if_false, List.nil_append, List.append_nil]
  unfold Prf.audioLines
  cases h : Prf.audioAll s with
  | true =>
    simp [List.filter_cons, isAudio_playback_mode, isAudio_playback_device,
      isAudio_capture_mode, isAudio_capture_device]
  | false => simp

/-! ## C10 -/

/-- C10: `prf_files` only completes on a profile file containing at least
one `Plugins<TAB>Plugin<digit><TAB>` line: on a file with no such line the
collected digit set is empty, `sorted(plugin_count)[-1]` raises
`IndexError`, the settings append for that file is aborted, and the whole
`.prf` stage of the merge terminates exceptionally. -/
theorem c10_missing_plugin_line_aborts (sct : Line) (s : Prf.Settings)
    (f : List Line) (pre post : List (List Line))
    (h : f.filterMap Prf.pluginDigit = []) :
    Prf.prf_files sct s f = Except.error Prf.PrfError.indexError ∧
    Prf.exceptOk (Prf.prfStage sct s (pre ++ f :: post)) = false := by
  have hf : Prf.prf_files sct s f = Except.error Prf.PrfError.indexError := by
    unfold Prf.prf_files Prf.sortedDigits
    rw [h]
    rfl
  refine ⟨hf, ?_⟩
  induction pre with
  | nil =>
    rw [List.nil_append]
    unfold Prf.prfStage
    rw [hf]
    rfl
  | cons a t ih =>
    rw [List.cons_append]
    unfold Prf.prfStage
    cases hpf : Prf.prf_files sct s a with
    | error e => rfl
    | ok out =>
      cases hps : Prf.prfStage sct s (t ++ f :: post) with
      | error e => rfl
      | ok outs =>
        rw [hps] at ih
        cases ih

/-- C10 witness: a profile file with no plugin declaration line makes
`prf_files` raise and the surrounding `.prf` stage abort. -/
theorem c10_missing_plugin_line_aborts_witness :
    ([str "LastSession\trealname\tme"] : List Line).filterMap Prf.pluginDigit = [] ∧
    (Prf.prf_files (str "S")
        ⟨str "r", str "c", str "p", str "1", [], none, none, none, none, none, none⟩
        [str "LastSession\trealname\tme"] = Except.error Prf.PrfError.indexError ∧
     Prf.exceptOk (Prf.prfStage (str "S")
        ⟨str "r", str "c", str "p", str "1", [], none, none, none, none, none, none⟩
        ([] ++ [str "LastSession\trealname\tme"] :: [])) = false) :=
  ⟨by decide,
    c10_missing_plugin_line_aborts (str "S")
      ⟨str "r", str "c", str "p", str "1", [], none, none, none, none, none, none⟩
      [str "LastSession\trealname\tme"] [] [] (by decide)⟩
